import Mathlib

set_option maxHeartbeats 4000000
set_option maxRecDepth 100000

/-!
Shallow embedding of `src/main.cpp` (ESP32-C3 room monitor firmware) and
verification of its specification claims.

Modelling conventions:
* `time_t` (64-bit signed) timestamps and C `int` values are modelled as `Int`;
  the code never drives them anywhere near 64-bit overflow at their use sites.
* The three `float` sensor fields (`temperature`, `humidity`, `pressure`) are
  only stored, copied and printed by the code paths under verification, never
  computed with; they are modelled as opaque values of type `Int` standing for
  their 32-bit patterns, so byte-for-byte identity is plain equality.
* `flashEntryCount` is a `uint32_t`; it grows only by one per flash append and
  is bounded by the file size, so its increments cannot realistically wrap and
  it is modelled as `Nat`.  The one place where `uint32_t` wrap-around does
  occur at small values, the subtraction `flashEntryCount - ramBufferCount`
  in `getHistoryEntry` and `flashEntryCount - 1` in the history clamping, is
  modelled with an explicit `% 2^32`.
* File and key-value I/O is modelled by explicit success flags and by the file
  contents as a list of records.
-/

/-- `struct SensorData`: one fixed-size sample record. -/
structure SensorData where
  temperature : Int
  humidity : Int
  pressure : Int
  timestamp : Int
deriving DecidableEq

/-- `SensorData data = {0};` — the all-zero record. -/
def zeroSensorData : SensorData := ⟨0, 0, 0, 0⟩

/-- History-store state: `flash` is the contents of `/history.dat` (one entry
per stored record, in file order), `flashEntryCount` the wake-persistent
counter, `ramBuffer` the valid prefix of the RAM mirror (`ramBufferCount` is
its length), and the wake-persistent oldest/newest timestamps. -/
structure HistoryState where
  flash : List SensorData
  flashEntryCount : Nat
  ramBuffer : List SensorData
  oldestTimestamp : Int
  newestTimestamp : Int
deriving DecidableEq

/-- The state of the globals at a cold boot: empty file, zeroed RTC memory,
empty mirror. -/
def emptyState : HistoryState := ⟨[], 0, [], 0, 0⟩

/-- The RAM-mirror push at the top of `logReading`: plain append below
capacity (`RAM_BUFFER_SIZE = 48`), shift-left-and-append at capacity. -/
def pushRam (ram : List SensorData) (d : SensorData) : List SensorData :=
  if ram.length < 48 then ram ++ [d] else ram.tail ++ [d]

/-- `logReading(data)`.  The record is pushed into the RAM mirror first; then
the filesystem is mounted (`mountOk`) and the file opened for append
(`openOk`).  Only on success is the record written, the counter incremented,
the newest timestamp updated and — on the very first record — the oldest
timestamp set.  On a failed mount or open the function returns with only the
mirror push done. -/
def logReading (mountOk openOk : Bool) (st : HistoryState) (d : SensorData) :
    HistoryState :=
  let ram := pushRam st.ramBuffer d
  if mountOk ∧ openOk then
    { flash := st.flash ++ [d]
      flashEntryCount := st.flashEntryCount + 1
      ramBuffer := ram
      newestTimestamp := d.timestamp
      oldestTimestamp :=
        if st.flashEntryCount + 1 = 1 then d.timestamp else st.oldestTimestamp }
  else
    { st with ramBuffer := ram }

/-- A sequence of appends via `logReading` (all file operations succeeding),
starting from a cold-booted empty store. -/
def appendAll (L : List SensorData) : HistoryState :=
  L.foldl (fun st d => logReading true true st d) emptyState

/-- `getHistoryEntry(index)`.  The guard
`index >= flashEntryCount - ramBufferCount && index < flashEntryCount`
subtracts in `uint32_t`, which wraps modulo `2^32` when the mirror holds more
records than the counter; this wrap is modelled explicitly.  Inside the guard
the entry comes from the mirror at `ramBufferCount - (flashEntryCount - index)`;
otherwise it is read from the file at offset `index * sizeof(SensorData)`
(a seek past the end leaves the zero-initialised record untouched, which the
`List.getD` default mirrors). -/
def getHistoryEntry (st : HistoryState) (index : Nat) : SensorData :=
  if (st.flashEntryCount + 4294967296 - st.ramBuffer.length) % 4294967296 ≤ index
      ∧ index < st.flashEntryCount then
    st.ramBuffer.getD (st.ramBuffer.length - (st.flashEntryCount - index))
      zeroSensorData
  else
    st.flash.getD index zeroSensorData

/-- `loadRamBuffer()` (boot-time).  `mountOk` is the result of
`LittleFS.begin(true)`; `file` is the contents of `/history.dat` when the open
succeeds (`none` when the file does not exist).  On mount failure the function
returns immediately, leaving every global as it was.  With no file, counter and
mirror are zeroed.  Otherwise the counter is the file size in records, the
mirror is the `min(count, 48)`-record tail of the file, the newest timestamp
is the mirror's last entry and the oldest is re-read from record 0. -/
def loadRamBuffer (mountOk : Bool) (file : Option (List SensorData))
    (st : HistoryState) : HistoryState :=
  if mountOk then
    match file with
    | none => { st with flash := [], flashEntryCount := 0, ramBuffer := [] }
    | some recs =>
      let count := recs.length
      let ramCount := min count 48
      let ram := recs.drop (count - ramCount)
      if 0 < ramCount then
        { flash := recs
          flashEntryCount := count
          ramBuffer := ram
          newestTimestamp := (ram.getD (ram.length - 1) zeroSensorData).timestamp
          oldestTimestamp := (recs.getD 0 zeroSensorData).timestamp }
      else
        { st with flash := recs, flashEntryCount := count, ramBuffer := ram }
  else st

/-- Conversion of a `uint32_t` value (given as its `Nat` value) to a 32-bit
signed `int`, as done by the C++ assignments `historyIndex = flashEntryCount - 1`
and `totalEntries = flashEntryCount` (two's complement on the target). -/
def uint32ToInt32 (n : Nat) : Int :=
  if n % 4294967296 < 2147483648 then ((n % 4294967296 : Nat) : Int)
  else ((n % 4294967296 : Nat) : Int) - 4294967296

/-- The `MODE_HISTORY` rotation handler in `loop()`:
`historyIndex -= delta`, clamp below at 0, then if
`historyIndex >= (int)flashEntryCount` set `historyIndex = flashEntryCount - 1`
(the `uint32_t` subtraction wraps to `2^32 - 1` when the count is zero, which
the `int` assignment reinterprets as `-1`). -/
def historyRotate (flashEntryCount : Nat) (historyIndex delta : Int) : Int :=
  let i1 := historyIndex - delta
  let i2 := if i1 < 0 then 0 else i1
  if i2 ≥ uint32ToInt32 flashEntryCount then
    uint32ToInt32 ((flashEntryCount + 4294967296 - 1) % 4294967296)
  else i2

/-- The discrete button events produced by `buttonISR`. -/
inductive ButtonEvent where
  | noEvent
  | shortEvent
  | longEvent
deriving DecidableEq

/-- The release branch of `buttonISR`: classify the press duration
(`now - buttonPressStart`, in unsigned milliseconds).
`pressDuration > 50 && pressDuration < 500` raises the short-press flag,
`pressDuration >= 500` the long-press flag, anything else is dropped as
contact bounce. -/
def classifyPress (pressDuration : Nat) : ButtonEvent :=
  if 50 < pressDuration ∧ pressDuration < 500 then .shortEvent
  else if 500 ≤ pressDuration then .longEvent
  else .noEvent

/-- The encoder consumption step of `loop()`: from the interrupt-masked tick
snapshot and the last consumed position, compute `deltaTicks`; when its
magnitude reaches `ENCODER_DETENTS_PER_CLICK = 2`, emit
`steps = deltaTicks / 2` (C++ `/` truncates toward zero, `Int.tdiv`) and
consume `steps * 2` ticks, leaving the remainder for the next iteration.
Returns `(steps, new lastProcessedTicks)`. -/
def consumeTicks (ticksSnapshot lastProcessedTicks : Int) : Int × Int :=
  let deltaTicks := ticksSnapshot - lastProcessedTicks
  if 2 ≤ deltaTicks.natAbs then
    let steps := Int.tdiv deltaTicks 2
    (steps, lastProcessedTicks + steps * 2)
  else
    (0, lastProcessedTicks)

/-- `enum DisplayMode`, in declaration order. -/
inductive DisplayMode where
  | overview
  | history
  | graphTemp
  | graphHumid
  | settings
deriving DecidableEq

/-- The numeric value of each `DisplayMode` enumerator. -/
def modeToNat : DisplayMode → Nat
  | .overview => 0
  | .history => 1
  | .graphTemp => 2
  | .graphHumid => 3
  | .settings => 4

/-- The enumerator of a numeric value (total, as the code only ever produces
values `< 5` via `% 5`). -/
def modeOfNat : Nat → DisplayMode
  | 0 => .overview
  | 1 => .history
  | 2 => .graphTemp
  | 3 => .graphHumid
  | _ => .settings

/-- `currentMode = (DisplayMode)((currentMode + 1) % 5)`. -/
def cycleMode (m : DisplayMode) : DisplayMode :=
  modeOfNat ((modeToNat m + 1) % 5)

/-- The `"settings"` key-value namespace: keys `summerTime` and
`lastNtpSync`. -/
structure Prefs where
  summerTime : Bool
  lastNtpSync : Int
deriving DecidableEq

/-- `saveSettings()`: writes the current `isSummerTime` and `lastNtpSync`
globals into the store. -/
def saveSettings (isSummerTime : Bool) (lastNtpSync : Int) : Prefs :=
  ⟨isSummerTime, lastNtpSync⟩

/-- The short-press branch of `loop()`: in `MODE_SETTINGS` it calls
`saveSettings()` and jumps to `MODE_OVERVIEW`; in every other mode it advances
to `(currentMode + 1) % 5`.  Returns the new mode and the (possibly updated)
settings store. -/
def shortPressStep (mode : DisplayMode) (isSummerTime : Bool)
    (lastNtpSync : Int) (prefs : Prefs) : DisplayMode × Prefs :=
  if mode = .settings then (.overview, saveSettings isSummerTime lastNtpSync)
  else (cycleMode mode, prefs)

/-- `getLocalTime(utc)`: `utc + BASE_GMT_OFFSET_SEC`, plus `DST_OFFSET_SEC`
when `isSummerTime` (the two offsets are compile-time configuration and are
taken as parameters). -/
def getLocalTime (baseOffset dstOffset : Int) (isSummerTime : Bool)
    (utc : Int) : Int :=
  utc + (baseOffset + if isSummerTime then dstOffset else 0)

/-- The display commands issued through the SSD1306 driver.  Formatted text
(`strftime` dates, `printf`-style numbers) is abstracted into tokens carrying
the exact values printed, so two renderings are equal iff they draw the same
contents. -/
inductive DispCmd where
  | clear
  | setTextSize (n : Nat)
  | setCursor (x y : Int)
  | printStr (s : String)
  | printDate (t : Int)
  | printTimeHM (t : Int)
  | printTimeFull (t : Int)
  | printVal (v : Int) (decimals : Nat)
  | printHeader (index total : Int)
  | writeChar (c : Nat)
  | drawPixel (x y : Int)
  | render
deriving DecidableEq

/-- The decorative-marker state of `displayOverview`: `animX`, `animDir` and
`lastAnimTick` (globals). -/
structure AnimState where
  animX : Int
  animDir : Int
  lastAnimTick : Nat
deriving DecidableEq

/-- The globals' boot values: `animX = 0`, `animDir = 1`, `lastAnimTick = 0`. -/
def animInit : AnimState := ⟨0, 1, 0⟩

/-- The marker update inside `displayOverview`: every elapsed `> 150` ms the
marker advances one pixel and bounces between offsets 0 and 20. -/
def animStep (nowMs : Nat) (a : AnimState) : AnimState :=
  if 150 < nowMs - a.lastAnimTick then
    let x1 := a.animX + a.animDir
    let p1 : Int × Int := if x1 < 0 then (0, 1) else (x1, a.animDir)
    let p2 : Int × Int := if 20 < p1.1 then (20, -1) else p1
    { animX := p2.1, animDir := p2.2, lastAnimTick := nowMs }
  else a

/-- `displayOverview()`.  Returns the commands sent to the display and the
updated marker state.  When the display is absent or the RAM mirror is empty
the function returns at once: no command is issued and no state is touched.
Otherwise it renders the local date and clock, the bouncing marker, the large
temperature and the humidity/pressure line of the shown sample (`liveData`
when `hasLiveData`, else the mirror's most recent record). -/
def displayOverview (displayAvailable : Bool) (baseOffset dstOffset : Int)
    (isSummerTime : Bool) (ramBuffer : List SensorData) (hasLiveData : Bool)
    (liveData : SensorData) (rtcEpoch : Int) (nowMs : Nat) (anim : AnimState) :
    List DispCmd × AnimState :=
  if displayAvailable = false ∨ ramBuffer.length = 0 then ([], anim)
  else
    let data :=
      if hasLiveData then liveData
      else ramBuffer.getD (ramBuffer.length - 1) zeroSensorData
    let localT := getLocalTime baseOffset dstOffset isSummerTime rtcEpoch
    let a := animStep nowMs anim
    ([.clear,
      .setTextSize 1, .setCursor 0 0, .printDate localT,
      .setCursor 85 0, .printTimeHM localT,
      .drawPixel (60 + a.animX) 10,
      .setTextSize 3, .setCursor 0 18, .printVal data.temperature 1,
      .printStr " ", .writeChar 247, .printStr "C",
      .setTextSize 1, .setCursor 0 48, .printStr "H:",
      .printVal data.humidity 0, .printStr "%",
      .setCursor 70 48, .printStr "P:", .printVal data.pressure 0,
      .render], a)

/-- `displayHistory()`.  Returns the issued commands and the new value of the
global `historyIndex` (the function clamps it in place).  With no display it
is a no-op; with an empty store it renders the explicit "No history" screen;
otherwise it clamps the index to `[0, totalEntries - 1]` and renders the
browsed record. -/
def displayHistory (displayAvailable : Bool) (baseOffset dstOffset : Int)
    (isSummerTime : Bool) (st : HistoryState) (historyIndex : Int) :
    List DispCmd × Int :=
  if displayAvailable = false then ([], historyIndex)
  else if st.flashEntryCount = 0 then
    ([.clear, .setTextSize 1, .setCursor 20 28, .printStr "No history",
      .render], historyIndex)
  else
    let total := uint32ToInt32 st.flashEntryCount
    let i1 := if historyIndex < 0 then 0 else historyIndex
    let i2 := if i1 ≥ total then total - 1 else i1
    let data := getHistoryEntry st i2.toNat
    let localT := getLocalTime baseOffset dstOffset isSummerTime data.timestamp
    ([.clear, .setTextSize 1,
      .setCursor 0 0, .printHeader (i2 + 1) total,
      .setCursor 0 12, .printTimeFull localT,
      .setCursor 0 28, .printStr "T: ", .printVal data.temperature 1,
      .printStr "C",
      .setCursor 0 40, .printStr "H: ", .printVal data.humidity 0,
      .printStr "%",
      .setCursor 0 52, .printStr "P: ", .printVal data.pressure 0,
      .printStr "hPa",
      .render], i2)

/-- `enum TimeRange`, in declaration order. -/
inductive TimeRange where
  | daily
  | weekly
  | monthly
  | yearly
deriving DecidableEq

/-- The `switch (range)` at the top of `getSeries`. -/
def rangeSecondsOf : TimeRange → Int
  | .daily => 86400
  | .weekly => 604800
  | .monthly => 2592000
  | .yearly => 31536000

/-- C++ `(int)` cast of a floating-point value: truncation toward zero,
on an exact rational model of the value. -/
def ratTrunc (q : ℚ) : Int := Int.tdiv q.num (q.den : Int)

/-- The candidate-span estimate of `getSeries` (lines computing
`entriesPerSecond`, `estimatedStart`, `estimatedEnd`).  The source computes
`entriesPerSecond` and the two products in single-precision `float`; the model
uses exact rational arithmetic for them.  No claim below depends on the
rounding of this estimate: the claims are settled either on inputs that take
the `else` branch (`newestTimestamp == oldestTimestamp`, where no
floating-point operation executes) or uniformly in the produced span. -/
def estimateSpan (flashEntryCount : Nat) (oldest newest startTime endTime : Int) :
    Int × Int :=
  if 0 < flashEntryCount ∧ oldest < newest then
    let entriesPerSecond : ℚ := (flashEntryCount : ℚ) / ((newest : ℚ) - (oldest : ℚ))
    (max 0 (ratTrunc (((startTime : ℚ) - (oldest : ℚ)) * entriesPerSecond) - 10),
     min (flashEntryCount : Int)
       (ratTrunc (((endTime : ℚ) - (oldest : ℚ)) * entriesPerSecond) + 10))
  else (0, (flashEntryCount : Int))

/-- The first pass of `getSeries`: count the records of the index span whose
timestamp lies in `[startTime, endTime]`.  `fuel` is the number of remaining
iterations (`estimatedEnd - i` at the first call, an upper bound on the
loop's trip count since `i` increments every iteration). -/
def firstPassAux (st : HistoryState) (startTime endTime : Int) (e : Nat) :
    Nat → Nat → Nat
  | 0, _ => 0
  | fuel + 1, i =>
    if i < e then
      (if startTime ≤ (getHistoryEntry st i).timestamp
          ∧ (getHistoryEntry st i).timestamp ≤ endTime then 1 else 0)
        + firstPassAux st startTime endTime e fuel (i + 1)
    else 0

/-- The second pass of `getSeries`, exactly as the loop is written: while
`i < estimatedEnd && *count < maxPoints`, a record is skipped (and `collected`
incremented) whenever `collected % step != 0` — before any window test; only
at `collected % step == 0` is the record fetched and, if it matches the
window, emitted (incrementing both `collected` and `*count`); a non-matching
record seen at `collected % step == 0` leaves `collected` unchanged. -/
def secondPassAux (st : HistoryState) (startTime endTime : Int) (isTemp : Bool)
    (e step : Nat) : Nat → Nat → Nat → Nat → List Int
  | 0, _, _, _ => []
  | fuel + 1, i, collected, count =>
    if i < e ∧ count < 120 then
      if collected % step ≠ 0 then
        secondPassAux st startTime endTime isTemp e step fuel (i + 1)
          (collected + 1) count
      else
        let d := getHistoryEntry st i
        if startTime ≤ d.timestamp ∧ d.timestamp ≤ endTime then
          (if isTemp then d.temperature else d.humidity)
            :: secondPassAux st startTime endTime isTemp e step fuel (i + 1)
                (collected + 1) (count + 1)
        else
          secondPassAux st startTime endTime isTemp e step fuel (i + 1)
            collected count
    else []

/-- `getSeries(values, count, isTemperature, range, offset)`: the produced
series as a list (its length is the returned `*count`). -/
def getSeries (st : HistoryState) (now : Int) (isTemperature : Bool)
    (range : TimeRange) (offset : Nat) : List Int :=
  let rangeSeconds := rangeSecondsOf range
  let startTime := now - rangeSeconds * ((offset : Int) + 1)
  let endTime := now - rangeSeconds * (offset : Int)
  if st.flashEntryCount = 0 ∨ endTime < st.oldestTimestamp
      ∨ startTime > st.newestTimestamp then []
  else
    let se := estimateSpan st.flashEntryCount st.oldestTimestamp
      st.newestTimestamp startTime endTime
    let s := se.1.toNat
    let e := se.2.toNat
    let matchingCount := firstPassAux st startTime endTime e (e - s) s
    if matchingCount = 0 then []
    else
      let step := max 1 (matchingCount / 120)
      secondPassAux st startTime endTime isTemperature e step (e - s) s 0 0

/-- The second pass as the specification words it: one matching record is kept
out of every `step`, the running counter being advanced only by matching
records and unaffected by skipped non-matching records.  (Written for
comparison against `secondPassAux`, which embeds the source.) -/
def specSecondPassAux (st : HistoryState) (startTime endTime : Int)
    (isTemp : Bool) (e step : Nat) : Nat → Nat → Nat → Nat → List Int
  | 0, _, _, _ => []
  | fuel + 1, i, collected, count =>
    if i < e ∧ count < 120 then
      let d := getHistoryEntry st i
      if startTime ≤ d.timestamp ∧ d.timestamp ≤ endTime then
        if collected % step = 0 then
          (if isTemp then d.temperature else d.humidity)
            :: specSecondPassAux st startTime endTime isTemp e step fuel (i + 1)
                (collected + 1) (count + 1)
        else
          specSecondPassAux st startTime endTime isTemp e step fuel (i + 1)
            (collected + 1) count
      else
        specSecondPassAux st startTime endTime isTemp e step fuel (i + 1)
          collected count
    else []

/-- `getSeries` as the specification describes it: identical window, span
estimate, first pass and stride, but with the spec's second-pass counter
semantics (`specSecondPassAux`). -/
def getSeriesSpecified (st : HistoryState) (now : Int) (isTemperature : Bool)
    (range : TimeRange) (offset : Nat) : List Int :=
  let rangeSeconds := rangeSecondsOf range
  let startTime := now - rangeSeconds * ((offset : Int) + 1)
  let endTime := now - rangeSeconds * (offset : Int)
  if st.flashEntryCount = 0 ∨ endTime < st.oldestTimestamp
      ∨ startTime > st.newestTimestamp then []
  else
    let se := estimateSpan st.flashEntryCount st.oldestTimestamp
      st.newestTimestamp startTime endTime
    let s := se.1.toNat
    let e := se.2.toNat
    let matchingCount := firstPassAux st startTime endTime e (e - s) s
    if matchingCount = 0 then []
    else
      let step := max 1 (matchingCount / 120)
      specSecondPassAux st startTime endTime isTemperature e step (e - s) s 0 0

/-- First pass of `getSeries` re-expressed directly over the append log
(record `i` read as `L.getD i` instead of through `getHistoryEntry`). -/
def firstLogAux (L : List SensorData) (startTime endTime : Int) (e : Nat) :
    Nat → Nat → Nat
  | 0, _ => 0
  | fuel + 1, i =>
    if i < e then
      (if startTime ≤ (L.getD i zeroSensorData).timestamp
          ∧ (L.getD i zeroSensorData).timestamp ≤ endTime then 1 else 0)
        + firstLogAux L startTime endTime e fuel (i + 1)
    else 0

/-- Second pass of `getSeries` re-expressed directly over the append log,
with the code's actual counter semantics (see `secondPassAux`). -/
def secondLogAux (L : List SensorData) (startTime endTime : Int) (isTemp : Bool)
    (e step : Nat) : Nat → Nat → Nat → Nat → List Int
  | 0, _, _, _ => []
  | fuel + 1, i, collected, count =>
    if i < e ∧ count < 120 then
      if collected % step ≠ 0 then
        secondLogAux L startTime endTime isTemp e step fuel (i + 1)
          (collected + 1) count
      else
        let d := L.getD i zeroSensorData
        if startTime ≤ d.timestamp ∧ d.timestamp ≤ endTime then
          (if isTemp then d.temperature else d.humidity)
            :: secondLogAux L startTime endTime isTemp e step fuel (i + 1)
                (collected + 1) (count + 1)
        else
          secondLogAux L startTime endTime isTemp e step fuel (i + 1)
            collected count
    else []

/-- `getSeries` computed directly from the sequence `L` of appended records:
same window, same span estimate (aggregates taken from `L` itself), same
stride `max(1, matchingCount / 120)`, and the second pass walking the log
directly with the code's counter semantics. -/
def getSeriesFromLog (L : List SensorData) (now : Int) (isTemperature : Bool)
    (range : TimeRange) (offset : Nat) : List Int :=
  let rangeSeconds := rangeSecondsOf range
  let startTime := now - rangeSeconds * ((offset : Int) + 1)
  let endTime := now - rangeSeconds * (offset : Int)
  let oldest := ((L.head?).getD zeroSensorData).timestamp
  let newest := ((L.getLast?).getD zeroSensorData).timestamp
  if L.length = 0 ∨ endTime < oldest ∨ startTime > newest then []
  else
    let se := estimateSpan L.length oldest newest startTime endTime
    let s := se.1.toNat
    let e := se.2.toNat
    let matchingCount := firstLogAux L startTime endTime e (e - s) s
    if matchingCount = 0 then []
    else
      let step := max 1 (matchingCount / 120)
      secondLogAux L startTime endTime isTemperature e step (e - s) s 0 0

/-! ### Concrete inputs used by witnesses and counterexamples -/

/-- Witness log for the round-trip claim: 50 distinct records, so that index 0
must be read back from the flash file (the mirror holds only the last 48)
while index 49 is served from the mirror. -/
def witnessRec (i : Nat) : SensorData :=
  ⟨(i : Int), (i : Int) + 100, 1013, (i : Int) * 60⟩

/-- Fifty-record witness log. -/
def witnessLog : List SensorData := (List.range 50).map witnessRec

/-- A one-record store, base state of the failed-append counterexample. -/
def failBase : HistoryState := appendAll [⟨10, 20, 30, 100⟩]

/-- `failBase` after a `logReading` whose file open failed: the mirror has
been pushed but the flash file and the counter are untouched. -/
def failAfter : HistoryState := logReading true false failBase ⟨11, 21, 31, 200⟩

/-- The globals at the start of a wake from deep sleep whose previous session
had logged 100 records: the RTC-persistent counter still reads 100, the RAM
mirror is freshly zero-initialised.  (The unreadable flash file is irrelevant
to a failed mount and not represented.) -/
def staleBoot : HistoryState :=
  { flash := [], flashEntryCount := 100, ramBuffer := [],
    oldestTimestamp := 360000, newestTimestamp := 538200 }

/-- Record `i` of the downsampling counterexample log: all records carry
timestamp 1000000 except record 1, whose timestamp 0 lies outside every
window ending at 1000000; the temperature field encodes the index. -/
def skewRec (i : Nat) : SensorData :=
  ⟨(i : Int), 0, 0, if i = 1 then 0 else 1000000⟩

/-- The downsampling counterexample log: 241 records, of which 240 match a
daily window ending at `now = 1000000`, so the stride is 2; record 1 is the
lone non-matching record and sits between the first and second matching
ones.  Oldest and newest timestamps are equal, so `getSeries` takes the
estimate-free span `[0, 241)` and no floating-point operation is involved. -/
def skewLog : List SensorData := (List.range 241).map skewRec

/-- The store holding `skewLog`. -/
def skewState : HistoryState := appendAll skewLog

/-! ### Helper lemmas -/

theorem appendAll_concat (L : List SensorData) (d : SensorData) :
    appendAll (L ++ [d]) = logReading true true (appendAll L) d := by
  unfold appendAll
  rw [List.foldl_append]
  rfl

/-- The successful-append path of `logReading` written out. -/
theorem logReading_ok (st : HistoryState) (d : SensorData) :
    logReading true true st d =
      { flash := st.flash ++ [d]
        flashEntryCount := st.flashEntryCount + 1
        ramBuffer := pushRam st.ramBuffer d
        newestTimestamp := d.timestamp
        oldestTimestamp :=
          if st.flashEntryCount + 1 = 1 then d.timestamp
          else st.oldestTimestamp } := rfl

/-- The successful-mount, file-found path of `loadRamBuffer` written out. -/
theorem loadRamBuffer_found (recs : List SensorData) (st : HistoryState) :
    loadRamBuffer true (some recs) st =
      if 0 < min recs.length 48 then
        { flash := recs
          flashEntryCount := recs.length
          ramBuffer := recs.drop (recs.length - min recs.length 48)
          newestTimestamp := ((recs.drop (recs.length - min recs.length 48)).getD
            ((recs.drop (recs.length - min recs.length 48)).length - 1)
            zeroSensorData).timestamp
          oldestTimestamp := (recs.getD 0 zeroSensorData).timestamp }
      else
        { st with
          flash := recs
          flashEntryCount := recs.length
          ramBuffer := recs.drop (recs.length - min recs.length 48) } := rfl

/-- Master invariant of a successful append sequence from the empty store:
the file holds exactly the appended records, the counter is their number, the
mirror is the at-most-48-record tail, and the oldest/newest timestamps are
those of the first/last record. -/
theorem appendAll_spec (L : List SensorData) :
    (appendAll L).flash = L ∧
    (appendAll L).flashEntryCount = L.length ∧
    (appendAll L).ramBuffer = L.drop (L.length - 48) ∧
    (appendAll L).oldestTimestamp = ((L.head?).getD zeroSensorData).timestamp ∧
    (appendAll L).newestTimestamp = ((L.getLast?).getD zeroSensorData).timestamp := by
  induction L using List.reverseRecOn with
  | nil => exact ⟨rfl, rfl, rfl, rfl, rfl⟩
  | append_singleton L d ih =>
    obtain ⟨hf, hc, hr, ho, hn⟩ := ih
    rw [appendAll_concat, logReading_ok]
    refine ⟨?_, ?_, ?_, ?_, ?_⟩
    · show (appendAll L).flash ++ [d] = L ++ [d]
      rw [hf]
    · show (appendAll L).flashEntryCount + 1 = (L ++ [d]).length
      simp [hc]
    · show pushRam (appendAll L).ramBuffer d = _
      rw [hr]
      unfold pushRam
      have hdl : (L.drop (L.length - 48)).length = L.length - (L.length - 48) :=
        List.length_drop _ _
      by_cases hlen : L.length < 48
      · rw [if_pos (by omega)]
        have h0 : L.length - 48 = 0 := by omega
        have h1 : (L ++ [d]).length - 48 = 0 := by simp; omega
        rw [h0, h1, List.drop_zero, List.drop_zero]
      · rw [if_neg (by omega)]
        rw [List.tail_drop]
        have h2 : (L ++ [d]).length - 48 = L.length - 48 + 1 := by simp; omega
        rw [h2, List.drop_append_of_le_length (by omega)]
    · show (if (appendAll L).flashEntryCount + 1 = 1 then d.timestamp
          else (appendAll L).oldestTimestamp) = _
      rw [hc, ho]
      rcases L with _ | ⟨a, L'⟩
      · simp
      · simp
    · show d.timestamp = _
      simp [List.getLast?_concat]

/-- Round trip through the store after a successful append sequence: every
index reads back as direct access into the append log (indices past the end
read the zero record on both sides). -/
theorem getHistoryEntry_appendAll (L : List SensorData)
    (hlen : L.length < 4294967296) (i : Nat) :
    getHistoryEntry (appendAll L) i = L.getD i zeroSensorData := by
  obtain ⟨hf, hc, hr, -, -⟩ := appendAll_spec L
  unfold getHistoryEntry
  rw [hf, hc, hr]
  have hdl : (L.drop (L.length - 48)).length = L.length - (L.length - 48) :=
    List.length_drop _ _
  by_cases hg : (L.length + 4294967296 - (L.drop (L.length - 48)).length) % 4294967296 ≤ i
      ∧ i < L.length
  · rw [if_pos hg]
    obtain ⟨h1, h2⟩ := hg
    rw [hdl] at h1
    have hidx : L.length - 48 + ((L.drop (L.length - 48)).length - (L.length - i)) = i := by
      rw [hdl]; omega
    rw [List.getD_eq_getElem?_getD, List.getD_eq_getElem?_getD,
      List.getElem?_drop, hidx]
  · rw [if_neg hg]

/-- C1.  History append/read round-trip: after any sequence of `N` records
appended via `logReading`, `getHistoryEntry i` for every `i ∈ [0, N)` returns
exactly the record appended at position `i` (whether `i` falls in the trailing
mirror window or must come back from the flash file). -/
theorem history_roundtrip (L : List SensorData) (hlen : L.length < 4294967296)
    (i : Nat) (hi : i < L.length) :
    getHistoryEntry (appendAll L) i = L.getD i zeroSensorData :=
  getHistoryEntry_appendAll L hlen i

/-- Witness for `history_roundtrip` at a 50-record log, index 0 (file path)
and index 49 (mirror path). -/
theorem history_roundtrip_witness :
    witnessLog.length < 4294967296 ∧ 0 < witnessLog.length ∧ 49 < witnessLog.length ∧
    getHistoryEntry (appendAll witnessLog) 0 = witnessLog.getD 0 zeroSensorData ∧
    getHistoryEntry (appendAll witnessLog) 49 = witnessLog.getD 49 zeroSensorData :=
  ⟨by decide, by decide, by decide,
   history_roundtrip witnessLog (by decide) 0 (by decide),
   history_roundtrip witnessLog (by decide) 49 (by decide)⟩

/-- C2.  Mirror bound invariant: after every sequence of successful appends
from the empty store, and likewise after a boot-time `loadRamBuffer` that
mounts and finds the history file, the mirror holds exactly `min(total, 48)`
records and they are the most recent `min(total, 48)` appended records in
chronological (file) order. -/
theorem mirror_bound :
    (∀ L : List SensorData,
      (appendAll L).ramBuffer.length = min L.length 48 ∧
      (appendAll L).flashEntryCount = L.length ∧
      (appendAll L).ramBuffer = L.drop (L.length - 48)) ∧
    ∀ (recs : List SensorData) (st : HistoryState),
      (loadRamBuffer true (some recs) st).ramBuffer.length = min recs.length 48 ∧
      (loadRamBuffer true (some recs) st).flashEntryCount = recs.length ∧
      (loadRamBuffer true (some recs) st).ramBuffer = recs.drop (recs.length - 48) := by
  constructor
  · intro L
    obtain ⟨-, hc, hr, -, -⟩ := appendAll_spec L
    refine ⟨?_, hc, hr⟩
    rw [hr, List.length_drop]
    omega
  · intro recs st
    have hdrop : recs.length - min recs.length 48 = recs.length - 48 := by omega
    rw [loadRamBuffer_found]
    split_ifs with hpos
    · refine ⟨?_, rfl, ?_⟩
      · show (recs.drop (recs.length - min recs.length 48)).length = _
        rw [List.length_drop]
        omega
      · show recs.drop (recs.length - min recs.length 48) = _
        rw [hdrop]
    · refine ⟨?_, rfl, ?_⟩
      · show (recs.drop (recs.length - min recs.length 48)).length = _
        rw [List.length_drop]
        omega
      · show recs.drop (recs.length - min recs.length 48) = _
        rw [hdrop]

/-- C4 counterexample.  After a `logReading` whose history-file open failed,
the total count is indeed unchanged, but the store's observable state is not
as if the append never happened: the mirror has grown by the dropped record,
and the overview screen (which shows the mirror's most recent sample) renders
differently than before the failed append. -/
theorem append_failure_counterexample :
    failAfter.flashEntryCount = failBase.flashEntryCount ∧
    failAfter.ramBuffer ≠ failBase.ramBuffer ∧
    (displayOverview true 0 0 false failAfter.ramBuffer false zeroSensorData
        0 0 animInit).1
      ≠ (displayOverview true 0 0 false failBase.ramBuffer false zeroSensorData
        0 0 animInit).1 := by
  decide

/-- C4 (amended).  When `logReading` cannot mount the filesystem or open the
history file, the record is dropped from the flash file and the total count,
file contents and oldest/newest timestamps are unchanged — but the record has
already been pushed into the RAM mirror, so the mirror does not revert. -/
theorem append_failure_state :
    (∀ (st : HistoryState) (d : SensorData) (openOk : Bool),
      logReading false openOk st d = { st with ramBuffer := pushRam st.ramBuffer d }) ∧
    (∀ (st : HistoryState) (d : SensorData),
      logReading true false st d = { st with ramBuffer := pushRam st.ramBuffer d }) ∧
    ∀ (st : HistoryState) (d : SensorData),
      (logReading true false st d).flashEntryCount = st.flashEntryCount ∧
      (logReading true false st d).flash = st.flash ∧
      (logReading true false st d).oldestTimestamp = st.oldestTimestamp ∧
      (logReading true false st d).newestTimestamp = st.newestTimestamp := by
  refine ⟨fun st d openOk => ?_, fun st d => rfl, fun st d => ⟨rfl, rfl, rfl, rfl⟩⟩
  unfold logReading
  rcases openOk with _ | _ <;> rfl

/-- C5 counterexample.  On a wake whose previous session had logged 100
records, a failed filesystem mount at `loadRamBuffer` leaves the
RTC-persistent total count at 100 — the store does not become a
zero-count empty store as the claim states. -/
theorem mount_failure_counterexample :
    (loadRamBuffer false none staleBoot).flashEntryCount = 100 ∧
    (loadRamBuffer false none staleBoot).flashEntryCount ≠ 0 ∧
    (loadRamBuffer false none staleBoot).ramBuffer = [] := by
  decide

/-- C5 (amended).  A failed mount in `loadRamBuffer` is non-fatal but returns
early, leaving the whole store state exactly as it was: the mirror keeps its
fresh-boot empty value while the wake-persistent total count keeps its prior
value (which is 0 only after a cold boot); only the file-missing path resets
the count to 0. -/
theorem mount_failure_keeps_state :
    (∀ (file : Option (List SensorData)) (st : HistoryState),
      loadRamBuffer false file st = st) ∧
    ∀ st : HistoryState,
      (loadRamBuffer true none st).flashEntryCount = 0 ∧
      (loadRamBuffer true none st).ramBuffer = [] :=
  ⟨fun file st => rfl, fun st => ⟨rfl, rfl⟩⟩

/-- C6 counterexample.  On an empty store (`flashEntryCount = 0`), any
rotation step in History mode drives `historyIndex` to `-1` (the clamp
assigns `flashEntryCount - 1`, whose `uint32_t` wrap-around reinterprets as
`-1`), which lies outside `[0, total - 1]` and is in particular negative. -/
theorem history_browse_counterexample :
    historyRotate 0 0 1 = -1 ∧ ¬ 0 ≤ historyRotate 0 0 1 := by
  decide

/-- C6 (amended).  For a non-empty store the History rotation handler
performs `historyIndex -= d` and clamps the result into `[0, total - 1]`;
for an empty store it instead produces `-1`. -/
theorem history_browse_clamped (total : Nat) (idx d : Int)
    (h1 : 1 ≤ total) (h2 : total < 2147483648) :
    0 ≤ historyRotate total idx d ∧ historyRotate total idx d ≤ (total : Int) - 1 := by
  simp only [historyRotate, uint32ToInt32]
  split_ifs <;> constructor <;> omega

/-- Witness for `history_browse_clamped`: a 3-record store, index 0, rotation
delta −5. -/
theorem history_browse_clamped_witness :
    1 ≤ 3 ∧ 3 < 2147483648 ∧
    (0 ≤ historyRotate 3 0 (-5) ∧ historyRotate 3 0 (-5) ≤ (3 : Int) - 1) :=
  ⟨by decide, by decide, history_browse_clamped 3 0 (-5) (by decide) (by decide)⟩

/-- C7 counterexample.  A press of exactly 50 ms produces no event (the code
tests `pressDuration > 50`, strictly), whereas the claim places 50 ms in the
short-press band. -/
theorem press_boundary_counterexample :
    classifyPress 50 = ButtonEvent.noEvent ∧
    classifyPress 50 ≠ ButtonEvent.shortEvent := by
  decide

/-- C7 (amended).  On release, a press duration strictly between 50 and
500 ms produces a short press, a duration of at least 500 ms a long press,
and a duration of at most 50 ms no event; exactly one of the three outcomes
occurs for every duration. -/
theorem press_classification (d : Nat) :
    (classifyPress d = ButtonEvent.shortEvent ↔ 50 < d ∧ d < 500) ∧
    (classifyPress d = ButtonEvent.longEvent ↔ 500 ≤ d) ∧
    (classifyPress d = ButtonEvent.noEvent ↔ d ≤ 50) := by
  unfold classifyPress
  split_ifs with hA hB <;>
    refine ⟨?_, ?_, ?_⟩ <;> simp_all <;> omega

/-- C8.  Encoder detent division with remainder carry: the loop consumes the
tick delta by truncating division by 2 and carries the remainder; in
particular a delta of 7 yields 3 steps with 1 tick carried, and one further
tick (2 unconsumed) yields exactly 1 more step with remainder 0. -/
theorem encoder_detent_division :
    (∀ snapshot last : Int, 2 ≤ (snapshot - last).natAbs →
      (consumeTicks snapshot last).1 = Int.tdiv (snapshot - last) 2 ∧
      (consumeTicks snapshot last).2 = last + Int.tdiv (snapshot - last) 2 * 2) ∧
    consumeTicks 7 0 = (3, 6) ∧ (7 : Int) - 6 = 1 ∧
    consumeTicks 8 6 = (1, 8) ∧ (8 : Int) - 8 = 0 := by
  refine ⟨fun s l h => ?_, by decide, by decide, by decide, by decide⟩
  unfold consumeTicks
  rw [if_pos h]
  exact ⟨rfl, rfl⟩

/-- Witness for the universally quantified part of `encoder_detent_division`
at snapshot 7, last consumed 0. -/
theorem encoder_detent_division_witness :
    2 ≤ ((7 : Int) - 0).natAbs ∧
    ((consumeTicks 7 0).1 = Int.tdiv ((7 : Int) - 0) 2 ∧
      (consumeTicks 7 0).2 = 0 + Int.tdiv ((7 : Int) - 0) 2 * 2) :=
  ⟨by decide, encoder_detent_division.1 7 0 (by decide)⟩

/-- C9.  UI mode cycling and settings commit: a short press in Settings
transitions to Overview and persists the current daylight-saving value (and
last-sync value) to the settings store; a short press in any other mode
advances along the fixed cycle
Overview → History → Temperature-Graph → Humidity-Graph → Settings. -/
theorem mode_cycling :
    ∀ (s : Bool) (ls : Int) (p : Prefs),
      shortPressStep .settings s ls p = (.overview, ⟨s, ls⟩) ∧
      (shortPressStep .settings s ls p).2.summerTime = s ∧
      shortPressStep .overview s ls p = (.history, p) ∧
      shortPressStep .history s ls p = (.graphTemp, p) ∧
      shortPressStep .graphTemp s ls p = (.graphHumid, p) ∧
      shortPressStep .graphHumid s ls p = (.settings, p) :=
  fun s ls p => ⟨rfl, rfl, rfl, rfl, rfl, rfl⟩

/-- C10.  With an empty RAM mirror, `displayOverview` issues no display
command at all (and leaves the marker state untouched) even when the display
is available, whereas `displayHistory` on an empty store renders the explicit
"No history" screen. -/
theorem empty_mirror_render :
    (∀ (baseOffset dstOffset : Int) (isSummerTime hasLiveData : Bool)
        (liveData : SensorData) (rtcEpoch : Int) (nowMs : Nat) (anim : AnimState),
      displayOverview true baseOffset dstOffset isSummerTime [] hasLiveData
        liveData rtcEpoch nowMs anim = ([], anim)) ∧
    ∀ (baseOffset dstOffset : Int) (isSummerTime : Bool)
        (flash ram : List SensorData) (oldT newT historyIndex : Int),
      displayHistory true baseOffset dstOffset isSummerTime
          ⟨flash, 0, ram, oldT, newT⟩ historyIndex =
        ([.clear, .setTextSize 1, .setCursor 20 28, .printStr "No history",
          .render], historyIndex) :=
  ⟨fun _ _ _ _ _ _ _ _ => rfl, fun _ _ _ _ _ _ _ _ => rfl⟩

/-- C3 counterexample.  On a 241-record store whose records all match a daily
window except record 1 (so `matchingCount = 240` and the stride is 2, with no
floating-point span estimate involved since the oldest and newest timestamps
coincide), the code's second pass returns temperature 2 (record 2) as its
second point while the pass described by the specification — whose counter is
advanced only by matching records — would return temperature 3 (record 3):
the skipped non-matching record 1 advanced the code's counter. -/
theorem series_counter_counterexample :
    (getSeries skewState 1000000 true .daily 0).getD 1 0 = 2 ∧
    (getSeriesSpecified skewState 1000000 true .daily 0).getD 1 0 = 3 ∧
    getSeries skewState 1000000 true .daily 0 ≠
      getSeriesSpecified skewState 1000000 true .daily 0 := by
  decide

/-- Both passes of `getSeries` read store entries exactly as direct access
into the append log reads them (first pass). -/
theorem firstPass_eq_log (L : List SensorData) (hlen : L.length < 4294967296)
    (startTime endTime : Int) (e : Nat) :
    ∀ fuel i, firstPassAux (appendAll L) startTime endTime e fuel i =
      firstLogAux L startTime endTime e fuel i := by
  intro fuel
  induction fuel with
  | zero => intro i; rfl
  | succ n ih =>
    intro i
    simp only [firstPassAux, firstLogAux, getHistoryEntry_appendAll L hlen, ih]

/-- Both passes of `getSeries` read store entries exactly as direct access
into the append log reads them (second pass). -/
theorem secondPass_eq_log (L : List SensorData) (hlen : L.length < 4294967296)
    (startTime endTime : Int) (isTemp : Bool) (e step : Nat) :
    ∀ fuel i collected count,
      secondPassAux (appendAll L) startTime endTime isTemp e step fuel i
          collected count =
        secondLogAux L startTime endTime isTemp e step fuel i collected count := by
  intro fuel
  induction fuel with
  | zero => intro i c k; rfl
  | succ n ih =>
    intro i c k
    simp only [secondPassAux, secondLogAux, getHistoryEntry_appendAll L hlen, ih]

/-- C3 (amended).  For every append log, time range and pan offset,
`getSeries` computes stride `max(1, matchingCount / 120)` and equals the
walk of the appended records performed by `getSeriesFromLog`: one record is
kept whenever the running counter is at a multiple of the stride and matches
the window, the counter being advanced by every visited record except a
non-matching one seen while the counter is at a stride multiple (so skipped
non-matching records mid-stride do advance it), stopping when 120 points are
collected or the scanned span is exhausted. -/
theorem series_refinement (L : List SensorData) (hlen : L.length < 4294967296)
    (now : Int) (isTemperature : Bool) (range : TimeRange) (offset : Nat) :
    getSeries (appendAll L) now isTemperature range offset =
      getSeriesFromLog L now isTemperature range offset := by
  obtain ⟨-, hc, -, ho, hn⟩ := appendAll_spec L
  simp only [getSeries, getSeriesFromLog, hc, ho, hn,
    firstPass_eq_log L hlen, secondPass_eq_log L hlen]

/-- Witness for `series_refinement` on the 50-record witness log. -/
theorem series_refinement_witness :
    witnessLog.length < 4294967296 ∧
    getSeries (appendAll witnessLog) 3000 true .daily 0 =
      getSeriesFromLog witnessLog 3000 true .daily 0 :=
  ⟨by decide, series_refinement witnessLog (by decide) 3000 true .daily 0⟩
